import Mathlib

set_option autoImplicit false

/-!
Verification development for the web-intel repository.

The Python source is shallowly embedded: dataclasses become structures,
exceptions become an explicit `Exn` type threaded through `Except`,
file-backed stores become association lists from file names to parsed
records, and the crawl/stream loops become structural recursions over the
finite event sequences the external collaborators produce.  Wall-clock
time in the crawl pipeline is modelled by attaching a duration to each
yielded page and letting the timeout wrapper compare accumulated duration
against the budget.  Timestamps are modelled as opaque strings on which
`isoformat`/`fromisoformat` act as the identity; open `metadata`
dictionaries and per-message timestamps are not modelled because no
verified property mentions them.
-/

namespace WebIntel

/-- The exception taxonomy of `web_intel.utils.exceptions`: the four
`WebIntelError` subclasses. -/
inductive ErrKind where
  | crawler
  | agent
  | storage
  | validation
deriving DecidableEq, Repr

/-- A Python exception as observed by callers: either a `WebIntelError`
subclass raised directly, one raised with `from e` (carrying its cause),
a `ValueError`, or `asyncio.TimeoutError`. -/
inductive Exn where
  | base (kind : ErrKind) (msg : String) : Exn
  | wrapped (kind : ErrKind) (msg : String) (cause : Exn) : Exn
  | valueError (msg : String) : Exn
  | timeoutError : Exn
deriving DecidableEq, Repr

/-- The `WebIntelError` subclass of an exception, when it is one. -/
def exn_kind : Exn → Option ErrKind
  | .base k _ => some k
  | .wrapped k _ _ => some k
  | .valueError _ => none
  | .timeoutError => none

/-- The `__cause__` chained with `raise ... from e`. -/
def exn_cause : Exn → Option Exn
  | .wrapped _ _ c => some c
  | _ => none

/-- `str(e)` as used when wrapping exceptions into messages. -/
def exn_msg : Exn → String
  | .base _ m => m
  | .wrapped _ m _ => m
  | .valueError m => m
  | .timeoutError => ""

/-- The error kind carried by an `Except` outcome, when it failed. -/
def err_kind_of {α : Type} : Except Exn α → Option ErrKind
  | .error e => exn_kind e
  | .ok _ => none

/-! ## Session model (`web_intel/models/session.py`) -/

/-- One message of a conversation (`Message` dataclass; the per-message
timestamp and open metadata map are not modelled). -/
structure Message where
  role : String
  content : String
deriving DecidableEq, Repr

/-- A conversation session (`Session` dataclass; `created_at`/`updated_at`
timestamps and the open metadata map are not modelled). -/
structure Session where
  session_id : String
  messages : List Message := []
  context_source : Option String := none
deriving DecidableEq, Repr

/-- `Session.add_message`: append one message. -/
def add_message (s : Session) (role content : String) : Session :=
  { s with messages := s.messages ++ [{ role := role, content := content }] }

/-- Python `lst[-n:]`: the last `n` elements, except that `lst[-0:]` is the
whole list. -/
def slice_last {α : Type} (n : Nat) (l : List α) : List α :=
  if n = 0 then l else l.drop (l.length - n)

/-- `Session.get_recent_messages`: `messages[-n:] if len(messages) > n else
messages`, projected to role/content pairs (which is all `Message` holds
in this model). -/
def get_recent_messages (s : Session) (n : Nat) : List Message :=
  if s.messages.length > n then slice_last n s.messages else s.messages

/-! ## Query models (`web_intel/models/query.py`) -/

/-- `QueryContext` dataclass (the open metadata map is not modelled). -/
structure QueryContext where
  content : String
  max_tokens : Int
  conversation_history : List Message
deriving DecidableEq, Repr

/-- `QueryContext.__post_init__` validation: empty content and non-positive
`max_tokens` raise `ValueError`. -/
def mkQueryContext (content : String) (max_tokens : Int)
    (conversation_history : List Message) : Except Exn QueryContext :=
  if content = "" then .error (.valueError "Content cannot be empty")
  else if max_tokens ≤ 0 then .error (.valueError "max_tokens must be positive")
  else .ok { content := content, max_tokens := max_tokens,
             conversation_history := conversation_history }

/-- `QueryResult` dataclass (timestamp and metadata are not modelled). -/
structure QueryResult where
  response : String
  model_used : String := "unknown"
  tokens_used : Option Int := none
  finish_reason : Option String := none
deriving DecidableEq, Repr

/-! ## Crawl result model (`web_intel/models/crawl_result.py`) -/

/-- `PageResult` dataclass (`crawled_at` is an opaque timestamp string;
the open metadata map is not modelled). -/
structure PageResult where
  url : String
  content : String
  title : Option String := none
  status_code : Option Int := none
  crawled_at : String := ""
deriving DecidableEq, Repr

/-- `CrawlResult` dataclass (timestamps are opaque strings; `error_message`
and the open metadata map are not modelled). -/
structure CrawlResult where
  source_url : String
  pages : List PageResult
  success : Bool
  total_pages : Nat
  failed_pages : Nat
  crawl_depth : Nat := 1
  started_at : String := ""
  completed_at : Option String := none
deriving DecidableEq, Repr

/-- `CrawlResult.combined_content`: page contents joined with per-page
delimiters. -/
def combined_content (r : CrawlResult) : String :=
  String.intercalate "\n\n"
    (r.pages.map (fun p => "--- From: " ++ p.url ++ " ---\n" ++ p.content))

/-- `CrawlResult.success_rate`: `0.0` when `total_pages == 0`, else
`(total_pages - failed_pages) / total_pages`, with Python float division
modelled as exact rational division. -/
def success_rate (r : CrawlResult) : ℚ :=
  if r.total_pages = 0 then 0
  else ((r.total_pages : ℚ) - (r.failed_pages : ℚ)) / (r.total_pages : ℚ)

/-! ## Crawl pipeline (`web_intel/crawlers/crawl4ai.py`)

The external crawl engine yields raw page objects; attribute presence is
modelled with `Option` (`none` = attribute absent, `some ""` = attribute
present but falsy).  Each yielded page carries the wall-clock duration its
processing consumes, so the `asyncio.wait_for` budget can be compared
against accumulated duration. -/

/-- A raw page object as yielded by the external crawl engine. -/
structure RawPage where
  url : Option String := none
  markdown : Option String := none
  cleaned_html : Option String := none
  html : Option String := none
  title : Option String := none
  status_code : Option Int := none
deriving DecidableEq, Repr

/-- The `elif` chain of `_extract_page_result` after the markdown test
failed: `cleaned_html` when that attribute exists (even if falsy), `elif`
the `html` attribute, else empty. -/
def extract_content_fallback (raw : RawPage) : String :=
  match raw.cleaned_html with
  | some c => c
  | none =>
    match raw.html with
    | some h => h
    | none => ""

/-- The content-selection chain of `_extract_page_result`: `markdown` when
the attribute exists and is truthy, otherwise the `elif` fallback chain. -/
def extract_content (raw : RawPage) : String :=
  match raw.markdown with
  | some m => if m ≠ "" then m else extract_content_fallback raw
  | none => extract_content_fallback raw

/-- `Crawl4AICrawler._extract_page_result`: raises `ValueError` when no
content was selected, else builds a `PageResult`. -/
def extract_page_result (raw : RawPage) : Except Exn PageResult :=
  let url := raw.url.getD "Unknown"
  let content := extract_content raw
  if content = "" then .error (.valueError ("No content extracted from " ++ url))
  else .ok { url := url, content := content, title := raw.title,
             status_code := raw.status_code }

/-- Splits a URL at the first occurrence of `"://"`, giving the scheme and
the remainder (the `urlparse` behaviour on ordinary absolute URLs). -/
def split_scheme : List Char → Option (List Char × List Char)
  | [] => none
  | ':' :: '/' :: '/' :: rest => some ([], rest)
  | c :: rest =>
    match split_scheme rest with
    | some (s, r) => some (c :: s, r)
    | none => none

/-- `urlparse(url).scheme` and `.netloc` for ordinary absolute URLs. -/
def url_scheme_netloc (url : String) : String × String :=
  match split_scheme url.toList with
  | none => ("", "")
  | some (s, rest) => (String.mk s, String.mk (rest.takeWhile (fun c => c ≠ '/')))

/-- `Crawl4AICrawler.validate_url`: scheme must be `http` or `https` and the
netloc non-empty. -/
def validate_url (url : String) : Bool :=
  let sn := url_scheme_netloc url
  (sn.1 = "http" || sn.1 = "https") && sn.2 ≠ ""

/-- The `if max_pages and len(pages) >= max_pages` check (Python truthiness:
`max_pages` of `None` or `0` disables the cap). -/
def cap_reached (max_pages : Option Nat) (n : Nat) : Bool :=
  match max_pages with
  | some m => m != 0 && decide (m ≤ n)
  | none => false

/-- One crawl-engine event: the wall-clock duration consumed while this
page is fetched and processed, and the raw page yielded. -/
abbrev CrawlEvent := Nat × RawPage

/-- Total wall-clock duration of a list of events. -/
def sum_dur (evs : List CrawlEvent) : Nat :=
  (evs.map Prod.fst).sum

/-- The page extraction attempt of one event, as an `Option`. -/
def extract_ok (ev : CrawlEvent) : Option PageResult :=
  (extract_page_result ev.2).toOption

/-- Whether one event's page fails extraction. -/
def extract_fails (ev : CrawlEvent) : Bool :=
  (extract_page_result ev.2).toOption.isNone

/-- Number of events whose page fails extraction. -/
def count_failed (evs : List CrawlEvent) : Nat :=
  evs.countP extract_fails

/-- Number of events whose page extracts successfully. -/
def count_ok (evs : List CrawlEvent) : Nat :=
  (evs.filterMap extract_ok).length

/-- The `process_with_timeout` loop of `Crawl4AICrawler.crawl` under
`asyncio.wait_for`: pages accumulate (in reverse) with per-page failure
counting and the cooperative `max_pages` break; the budget comparison
models `wait_for` cancelling the traversal once accumulated duration
exceeds the budget. -/
def process_with_timeout (budget : Nat) (max_pages : Option Nat) :
    Nat → List PageResult → Nat → List CrawlEvent →
    Except Exn (List PageResult × Nat)
  | _, pages, failed, [] => .ok (pages.reverse, failed)
  | elapsed, pages, failed, (dur, raw) :: rest =>
    let t := elapsed + dur
    if budget < t then .error .timeoutError
    else
      match extract_page_result raw with
      | .ok p =>
        if cap_reached max_pages (p :: pages).length then
          .ok ((p :: pages).reverse, failed)
        else
          process_with_timeout budget max_pages t (p :: pages) failed rest
      | .error _ =>
        process_with_timeout budget max_pages t pages (failed + 1) rest

/-- `Crawl4AICrawler.crawl`: validate the URL, run the processing loop
under the `timeout * depth` budget, translate `asyncio.TimeoutError` into
`CrawlerError`, wrap any other unexpected failure into `CrawlerError`,
and assemble the final `CrawlResult`.  `started_at`/`completed_at` are the
opaque pipeline timestamps. -/
def crawl (cfg_timeout : Nat) (url : String) (depth : Nat)
    (max_pages : Option Nat) (events : List CrawlEvent)
    (started_at completed_at : String) : Except Exn CrawlResult :=
  if validate_url url then
    match process_with_timeout (cfg_timeout * depth) max_pages 0 [] 0 events with
    | .error .timeoutError =>
      .error (.base .crawler
        ("Crawl timed out after " ++ toString (cfg_timeout * depth) ++ " seconds"))
    | .error e =>
      .error (.wrapped .crawler ("Crawl failed: " ++ exn_msg e) e)
    | .ok (pages, failed) =>
      .ok { source_url := url
            pages := pages
            success := decide (0 < pages.length)
            total_pages := pages.length
            failed_pages := failed
            crawl_depth := depth
            started_at := started_at
            completed_at := some completed_at }
  else .error (.base .crawler ("Invalid URL: " ++ url))

/-! ## Context assembler (`web_intel/agents/ollama.py`) -/

/-- The fixed truncation notice appended by `OllamaAgent.prepare_context`. -/
def truncation_notice : String :=
  "\n\n[Note: Content truncated to fit context window]"

/-- `OllamaAgent.prepare_context`: pass content through when it fits in
`max_tokens * 4` characters, else truncate to that many characters and
append the fixed notice. -/
def prepare_context (content : String) (max_tokens : Nat) : String :=
  let max_chars := max_tokens * 4
  if content.length ≤ max_chars then content
  else content.take max_chars ++ truncation_notice

/-! ## Storage gateway (`web_intel/storage/file_storage.py`)

The two directories of `FileStorage` are modelled as association lists
from file name to file content; JSON files hold their parsed record
(`json.dumps`/`json.loads` round-trip as the identity on this data), and
markdown files hold rendered text. -/

/-- The persisted JSON shape of one page, as written by `_save_as_json`
(`crawled_at` carries the `isoformat` timestamp string). -/
structure PageJson where
  url : String
  title : Option String
  content : String
  status_code : Option Int
  crawled_at : String
deriving DecidableEq, Repr

/-- The persisted JSON shape of one crawl result, as written by
`_save_as_json`.  It has no `success` field. -/
structure CrawlJson where
  source_url : String
  started_at : String
  completed_at : Option String
  total_pages : Nat
  failed_pages : Nat
  crawl_depth : Nat
  pages : List PageJson
deriving DecidableEq, Repr

/-- The page dict built by `_save_as_json`. -/
def page_to_json (p : PageResult) : PageJson :=
  { url := p.url, title := p.title, content := p.content,
    status_code := p.status_code, crawled_at := p.crawled_at }

/-- The top-level dict built by `_save_as_json`. -/
def crawl_to_json (r : CrawlResult) : CrawlJson :=
  { source_url := r.source_url
    started_at := r.started_at
    completed_at := r.completed_at
    total_pages := r.total_pages
    failed_pages := r.failed_pages
    crawl_depth := r.crawl_depth
    pages := r.pages.map page_to_json }

/-- The `PageResult` reconstruction of `load_crawl_result`. -/
def json_to_page (p : PageJson) : PageResult :=
  { url := p.url, content := p.content, title := p.title,
    status_code := p.status_code, crawled_at := p.crawled_at }

/-- The `CrawlResult` reconstruction of `load_crawl_result`: note
`success=True` unconditionally, and the truthiness test on
`data.get("completed_at")`. -/
def json_to_crawl (j : CrawlJson) : CrawlResult :=
  { source_url := j.source_url
    pages := j.pages.map json_to_page
    success := true
    total_pages := j.total_pages
    failed_pages := j.failed_pages
    crawl_depth := j.crawl_depth
    started_at := j.started_at
    completed_at :=
      match j.completed_at with
      | some s => if s = "" then none else some s
      | none => none }

/-- First-match lookup in an association list keyed by file name. -/
def assoc_lookup {α : Type} : List (String × α) → String → Option α
  | [], _ => none
  | (k, v) :: rest, key => if k = key then some v else assoc_lookup rest key

/-- The state of `FileStorage`'s two directories. -/
structure FileStore where
  crawls_json : List (String × CrawlJson) := []
  crawls_md : List (String × String) := []
  sessions : List (String × Session) := []
deriving Repr

/-- The empty file store. -/
def file_store_empty : FileStore := {}

/-- `urlparse(url).netloc` with `.` replaced by `_`, as in
`save_crawl_result`'s id derivation. -/
def url_domain (url : String) : String :=
  ((url_scheme_netloc url).2).map (fun c => if c = '.' then '_' else c)

/-- The `<domain>_<timestamp>` result id of `save_crawl_result`
(`now` is the formatted creation timestamp). -/
def make_result_id (source_url now : String) : String :=
  url_domain source_url ++ "_" ++ now

/-- The markdown digest written by `_save_as_markdown`.  The `:.1%`
percentage formatting of the success rate is abstracted to the rational's
string form; nothing proved here depends on this file's text. -/
def render_markdown (r : CrawlResult) : String :=
  "# Crawl Result: " ++ r.source_url ++
  "\n\n**Crawled at:** " ++ r.started_at ++
  "\n**Total pages:** " ++ toString r.total_pages ++
  "\n**Success rate:** " ++ toString (success_rate r) ++
  "\n\n---\n\n" ++ combined_content r ++ "\n"

/-- The `except Exception` wrapper of `save_crawl_result`. -/
def storage_save_wrap (e : Exn) : Exn :=
  .wrapped .storage ("Failed to save crawl result: " ++ exn_msg e) e

/-- `FileStorage.save_crawl_result`: derive the result id, dispatch on the
format, raise `ValueError` on an unsupported format, and wrap every
failure of the body into `StorageError` carrying the cause. -/
def save_crawl_result (σ : FileStore) (r : CrawlResult) (format now : String) :
    Except Exn (String × FileStore) :=
  let result_id := make_result_id r.source_url now
  if format = "markdown" then
    .ok (result_id,
      { σ with crawls_md := (result_id ++ ".md", render_markdown r) :: σ.crawls_md })
  else if format = "json" then
    .ok (result_id,
      { σ with crawls_json := (result_id ++ ".json", crawl_to_json r) :: σ.crawls_json })
  else
    .error (storage_save_wrap (.valueError ("Unsupported format: " ++ format)))

/-- `FileStorage.load_crawl_result`: missing file raises `StorageError`;
an existing file is parsed and reconstructed (parse failures of corrupt
files are not representable in this store model, which holds parsed
records). -/
def load_crawl_result (σ : FileStore) (result_id : String) :
    Except Exn CrawlResult :=
  match assoc_lookup σ.crawls_json (result_id ++ ".json") with
  | none => .error (.base .storage ("Crawl result not found: " ++ result_id))
  | some j => .ok (json_to_crawl j)

/-- `FileStorage.save_session`: write the session under
`<session_id>.json` (last write wins). -/
def save_session (σ : FileStore) (s : Session) : FileStore :=
  { σ with sessions := (s.session_id ++ ".json", s) :: σ.sessions }

/-- `FileStorage.load_session`: a missing file yields a brand-new empty
`Session` with that id; an existing file is parsed (parse failures of
corrupt files are not representable in this store model). -/
def load_session (σ : FileStore) (session_id : String) : Session :=
  match assoc_lookup σ.sessions (session_id ++ ".json") with
  | some s => s
  | none => { session_id := session_id }

/-- `FileStorage.session_exists`: whether `<session_id>.json` exists. -/
def session_exists (σ : FileStore) (session_id : String) : Bool :=
  (assoc_lookup σ.sessions (session_id ++ ".json")).isSome

/-- Number of messages in the persisted record of a session id (`0` when no
record exists). -/
def session_message_count (σ : FileStore) (session_id : String) : Nat :=
  match assoc_lookup σ.sessions (session_id ++ ".json") with
  | some s => s.messages.length
  | none => 0

/-! ## Query orchestrator (`web_intel/core/orchestrator.py`)

The collaborators are abstracted by their per-call outcomes: the result of
loading the source file, the model client's blocking result, and (for the
streaming path) the fragment sequence the agent's generator produces
together with how it terminates.  A streaming consumer either drains the
generator (`none`) or abandons it after some number of received fragments
(`some k`); abandoning closes the generator at its suspension point, so
the code after the loop never runs (`GeneratorExit` is not an
`Exception`). -/

/-- Python truthiness of the optional `session_id` argument (an empty
string is falsy). -/
def truthy_id : Option String → Bool
  | none => false
  | some s => s != ""

/-- The `except Exception` wrapper of `query_with_source`. -/
def query_wrap (e : Exn) : Exn :=
  .wrapped .agent ("Query orchestration failed: " ++ exn_msg e) e

/-- The `except Exception` wrapper of `stream_query`. -/
def stream_wrap (e : Exn) : Exn :=
  .wrapped .agent ("Stream orchestration failed: " ++ exn_msg e) e

/-- The `try` body of `AgentOrchestrator.query_with_source`: load content,
load the session when a truthy session id is given, validate the
`QueryContext`, take the agent's result, and on success append the
user/assistant pair and persist the session. -/
def query_with_source_core (σ : FileStore) (content_res : Except Exn String)
    (agent_res : Except Exn QueryResult) (prompt source_path : String)
    (session_id : Option String) (max_tokens : Int) :
    Except Exn (QueryResult × FileStore) := do
  let content ← content_res
  let hs : List Message × Option Session :=
    if truthy_id session_id then
      let s := load_session σ (session_id.getD "")
      (get_recent_messages s 5, some s)
    else ([], none)
  let _ctx ← mkQueryContext content max_tokens hs.1
  let result ← agent_res
  match hs.2 with
  | some s =>
    if truthy_id session_id then
      let s1 := add_message s "user" prompt
      let s2 := add_message s1 "assistant" result.response
      let s3 := { s2 with context_source := some source_path }
      pure (result, save_session σ s3)
    else pure (result, σ)
  | none => pure (result, σ)

/-- The exception clauses of `query_with_source`: `StorageError` and
`AgentError` re-raise unchanged, every other exception is wrapped. -/
def orchestrate_handler (res : Except Exn (QueryResult × FileStore)) :
    Except Exn (QueryResult × FileStore) :=
  match res with
  | .ok v => .ok v
  | .error e =>
    if exn_kind e = some ErrKind.storage then .error e
    else if exn_kind e = some ErrKind.agent then .error e
    else .error (query_wrap e)

/-- `AgentOrchestrator.query_with_source`, body plus exception clauses. -/
def query_with_source (σ : FileStore) (content_res : Except Exn String)
    (agent_res : Except Exn QueryResult) (prompt source_path : String)
    (session_id : Option String) (max_tokens : Int) :
    Except Exn (QueryResult × FileStore) :=
  orchestrate_handler
    (query_with_source_core σ content_res agent_res prompt source_path
      session_id max_tokens)

/-- The agent's streaming generator, observed extensionally: the fragment
sequence it can produce, and whether it then stops normally (`none`) or
raises (`some e`) when the fragment after the last is requested. -/
structure StreamBehavior where
  chunks : List String
  terminal : Option Exn
deriving Repr

/-- The observable outcome of one `stream_query` call: the fragments the
consumer received, the session store after the call, and the exception the
consumer observed, if any. -/
structure StreamRun where
  yielded : List String
  store : FileStore
  outcome : Option Exn
deriving Repr

/-- The tail of `stream_query` once the consumer drains the generator: a
terminal failure of the agent stream is wrapped; on normal exhaustion the
accumulated full response and the user message are appended and the
session is persisted. -/
def stream_finish (σ : FileStore) (sb : StreamBehavior)
    (prompt source_path : String) (session_id : Option String)
    (sess : Option Session) : StreamRun :=
  match sb.terminal with
  | some e => { yielded := sb.chunks, store := σ, outcome := some (stream_wrap e) }
  | none =>
    match sess with
    | some s =>
      if truthy_id session_id then
        let full_response := String.join sb.chunks
        let s1 := add_message s "user" prompt
        let s2 := add_message s1 "assistant" full_response
        let s3 := { s2 with context_source := some source_path }
        { yielded := sb.chunks, store := save_session σ s3, outcome := none }
      else { yielded := sb.chunks, store := σ, outcome := none }
    | none => { yielded := sb.chunks, store := σ, outcome := none }

/-- `AgentOrchestrator.stream_query` as observed by one consumer.
`consumed = some k` means the consumer abandons after receiving `k`
fragments (possible only when the stream offers at least `k`); `none`
means it drains the generator.  A consumer that abandons before its first
request never starts the generator body. -/
def stream_query_run (σ : FileStore) (content_res : Except Exn String)
    (sb : StreamBehavior) (consumed : Option Nat)
    (prompt source_path : String) (session_id : Option String)
    (max_tokens : Int) : StreamRun :=
  if consumed = some 0 then { yielded := [], store := σ, outcome := none }
  else
    match content_res with
    | .error e => { yielded := [], store := σ, outcome := some (stream_wrap e) }
    | .ok content =>
      match mkQueryContext content max_tokens
          (if truthy_id session_id then
            get_recent_messages (load_session σ (session_id.getD "")) 5
          else []) with
      | .error e => { yielded := [], store := σ, outcome := some (stream_wrap e) }
      | .ok _ =>
        match consumed with
        | some k =>
          if k ≤ sb.chunks.length then
            { yielded := sb.chunks.take k, store := σ, outcome := none }
          else
            stream_finish σ sb prompt source_path session_id
              (if truthy_id session_id then
                some (load_session σ (session_id.getD "")) else none)
        | none =>
          stream_finish σ sb prompt source_path session_id
            (if truthy_id session_id then
              some (load_session σ (session_id.getD "")) else none)

/-! ## Helper lemmas -/

/-- A page record survives the JSON page round trip exactly. -/
theorem page_round_trip (p : PageResult) : json_to_page (page_to_json p) = p := rfl

/-- The page list survives the JSON round trip exactly. -/
theorem pages_round_trip (r : CrawlResult) :
    (json_to_crawl (crawl_to_json r)).pages = r.pages := by
  show (r.pages.map page_to_json).map json_to_page = r.pages
  induction r.pages with
  | nil => rfl
  | cons p rest ih => simp [ih, page_round_trip]

/-- If the cumulative duration overruns the budget at a point the loop
still reaches (the page cap, when given, is never met), the processing
loop is cancelled with `TimeoutError`. -/
theorem process_with_timeout_overrun (budget : Nat) (mp : Option Nat)
    (evs : List CrawlEvent) :
    ∀ (elapsed : Nat) (pages : List PageResult) (failed : Nat),
      elapsed ≤ budget →
      budget < elapsed + sum_dur evs →
      (∀ m, mp = some m → m ≠ 0 → pages.length + count_ok evs < m) →
      process_with_timeout budget mp elapsed pages failed evs =
        .error .timeoutError := by
  induction evs with
  | nil =>
    intro elapsed pages failed h1 h2 _
    exfalso
    simp [sum_dur] at h2
    omega
  | cons ev rest ih =>
    obtain ⟨dur, raw⟩ := ev
    intro elapsed pages failed h1 h2 hcap
    have hsum : sum_dur ((dur, raw) :: rest) = dur + sum_dur rest := by
      simp [sum_dur]
    unfold process_with_timeout
    by_cases ht : budget < elapsed + dur
    · rw [if_pos ht]
    · rw [if_neg ht]
      cases hex : extract_page_result raw with
      | ok p =>
        have hco : count_ok ((dur, raw) :: rest) = count_ok rest + 1 := by
          simp [count_ok, List.filterMap_cons, extract_ok, Except.toOption, hex]
        have hcr : cap_reached mp (p :: pages).length = false := by
          cases mp with
          | none => rfl
          | some m =>
            by_cases hm : m = 0
            · subst hm; simp [cap_reached]
            · have hlt := hcap m rfl hm
              rw [hco] at hlt
              simp only [cap_reached, List.length_cons, Bool.and_eq_false_iff,
                decide_eq_false_iff_not]
              right
              omega
        simp only [hcr, Bool.false_eq_true, if_false]
        apply ih
        · omega
        · rw [hsum] at h2; omega
        · intro m hmp hm
          have hlt := hcap m hmp hm
          rw [hco] at hlt
          simp only [List.length_cons]
          omega
      | error e =>
        have hco : count_ok ((dur, raw) :: rest) = count_ok rest := by
          simp [count_ok, List.filterMap_cons, extract_ok, Except.toOption, hex]
        apply ih
        · omega
        · rw [hsum] at h2; omega
        · intro m hmp hm
          have hlt := hcap m hmp hm
          rw [hco] at hlt
          omega

/-- When the whole event sequence fits in the budget and no page cap is
given, the processing loop runs to completion: the successfully extracted
pages are collected in order and every extraction failure adds one to the
failure count. -/
theorem process_with_timeout_complete (budget : Nat) (evs : List CrawlEvent) :
    ∀ (elapsed : Nat) (pages : List PageResult) (failed : Nat),
      elapsed + sum_dur evs ≤ budget →
      process_with_timeout budget none elapsed pages failed evs =
        .ok (pages.reverse ++ evs.filterMap extract_ok,
             failed + count_failed evs) := by
  induction evs with
  | nil =>
    intro elapsed pages failed _
    simp [process_with_timeout, count_failed]
  | cons ev rest ih =>
    obtain ⟨dur, raw⟩ := ev
    intro elapsed pages failed h
    have hsum : sum_dur ((dur, raw) :: rest) = dur + sum_dur rest := by
      simp [sum_dur]
    rw [hsum] at h
    have ht : ¬ budget < elapsed + dur := by omega
    unfold process_with_timeout
    rw [if_neg ht]
    cases hex : extract_page_result raw with
    | ok p =>
      have hcr : cap_reached none (p :: pages).length = false := rfl
      simp only [hcr, Bool.false_eq_true, if_false]
      rw [ih (elapsed + dur) (p :: pages) failed (by omega)]
      have hfail : extract_fails (dur, raw) = false := by
        simp [extract_fails, Except.toOption, hex]
      simp [List.filterMap_cons, extract_ok, Except.toOption, hex, count_failed,
        List.countP_cons, hfail]
    | error e =>
      simp only []
      rw [ih (elapsed + dur) pages (failed + 1) (by omega)]
      have hfail : extract_fails (dur, raw) = true := by
        simp [extract_fails, Except.toOption, hex]
      have hnone : extract_ok (dur, raw) = none := by
        simp [extract_ok, Except.toOption, hex]
      simp [List.filterMap_cons, hnone, count_failed, List.countP_cons, hfail]
      omega

/-! ## Claims -/

/-- Claim C6: `prepare_context(c, t)` returns `c` unchanged when
`len(c) ≤ 4*t`, and otherwise returns the first `4*t` characters of `c`
followed by the fixed truncation notice. -/
theorem prepare_context_spec (c : String) (t : Nat) (hpos : 0 < t) :
    (c.length ≤ 4 * t → prepare_context c t = c) ∧
    (4 * t < c.length → prepare_context c t = c.take (4 * t) ++ truncation_notice) := by
  unfold prepare_context
  constructor
  · intro h
    rw [if_pos (by omega)]
  · intro h
    rw [if_neg (by omega), Nat.mul_comm t 4]

/-- Witness for C6 at a concrete over-budget input. -/
theorem prepare_context_spec_witness :
    0 < 2 ∧ 4 * 2 < ("abcdefghij" : String).length ∧
    prepare_context "abcdefghij" 2 =
      String.take "abcdefghij" (4 * 2) ++ truncation_notice :=
  ⟨by decide, by decide,
    (prepare_context_spec "abcdefghij" 2 (by decide)).2 (by decide)⟩

/-- Claim C7: saving a `CrawlResult` in `json` format and reloading it by
the returned id yields a result with identical `source_url`,
`total_pages`, `failed_pages`, `crawl_depth`, and pairwise-identical page
urls and contents in order (timestamps are already at serialization
precision in this model). -/
theorem save_load_round_trip (σ : FileStore) (r : CrawlResult) (now : String) :
    ∃ rid σ2 r2,
      save_crawl_result σ r "json" now = .ok (rid, σ2) ∧
      load_crawl_result σ2 rid = .ok r2 ∧
      r2.source_url = r.source_url ∧
      r2.total_pages = r.total_pages ∧
      r2.failed_pages = r.failed_pages ∧
      r2.crawl_depth = r.crawl_depth ∧
      r2.pages.map PageResult.url = r.pages.map PageResult.url ∧
      r2.pages.map PageResult.content = r.pages.map PageResult.content := by
  refine ⟨make_result_id r.source_url now,
    { σ with crawls_json :=
        (make_result_id r.source_url now ++ ".json", crawl_to_json r) :: σ.crawls_json },
    json_to_crawl (crawl_to_json r), ?_, ?_, rfl, rfl, rfl, rfl, ?_, ?_⟩
  · simp only [save_crawl_result]
    rw [if_neg (by decide)]
    simp
  · simp [load_crawl_result, assoc_lookup]
  · rw [pages_round_trip]
  · rw [pages_round_trip]

/-- Claim C8: loading a session id that has no persisted record returns a
brand-new empty `Session` carrying that id, and `session_exists` is false
for that id. -/
theorem load_session_missing (σ : FileStore) (sid : String)
    (h : assoc_lookup σ.sessions (sid ++ ".json") = none) :
    session_exists σ sid = false ∧
    load_session σ sid =
      { session_id := sid, messages := [], context_source := none } := by
  unfold session_exists load_session
  rw [h]
  exact ⟨rfl, rfl⟩

/-- Witness for C8 on the empty store. -/
theorem load_session_missing_witness :
    session_exists file_store_empty "s1" = false ∧
    load_session file_store_empty "s1" =
      { session_id := "s1", messages := [], context_source := none } :=
  load_session_missing file_store_empty "s1" rfl

/-- A crawl result used for the unsupported-format scenario of claim C9. -/
def demo_crawl_result : CrawlResult :=
  { source_url := "https://example.com", pages := [], success := true,
    total_pages := 0, failed_pages := 0 }

/-- Claim C9 counterexample: requesting format `"xml"` fails with a
`StorageError` (the internal `ValueError` is wrapped by the
`except Exception` clause), not with a `ValidationError` — so the claim
that the caller sees a validation error is false. -/
theorem save_unsupported_format_not_validation :
    err_kind_of
        (save_crawl_result file_store_empty demo_crawl_result "xml" "20260101_000000")
      = some ErrKind.storage ∧
    ErrKind.storage ≠ ErrKind.validation :=
  ⟨rfl, by decide⟩

/-- Claim C9 (amended): for every format other than `markdown` and `json`,
`save_crawl_result` fails with a `StorageError` that wraps the underlying
`ValueError("Unsupported format: ...")`. -/
theorem save_unsupported_format (σ : FileStore) (r : CrawlResult)
    (format now : String) (h1 : format ≠ "markdown") (h2 : format ≠ "json") :
    save_crawl_result σ r format now =
      .error (storage_save_wrap (.valueError ("Unsupported format: " ++ format))) := by
  unfold save_crawl_result
  rw [if_neg h1, if_neg h2]

/-- Witness for C9 (amended) at format `"xml"`. -/
theorem save_unsupported_format_witness :
    ("xml" : String) ≠ "markdown" ∧ ("xml" : String) ≠ "json" ∧
    save_crawl_result file_store_empty demo_crawl_result "xml" "20260101_000000" =
      .error (storage_save_wrap (.valueError ("Unsupported format: " ++ "xml"))) :=
  ⟨by decide, by decide,
    save_unsupported_format file_store_empty demo_crawl_result "xml" "20260101_000000"
      (by decide) (by decide)⟩

/-- Claim C10: the `success` flag is not part of the persisted JSON (the
serialized record does not depend on it), and `load_crawl_result` always
reconstructs with `success = true`, so a saved `success = false` result is
reloaded as `success = true`. -/
theorem success_flag_not_persisted :
    (∀ (r : CrawlResult) (b : Bool),
      crawl_to_json { r with success := b } = crawl_to_json r) ∧
    (∀ j : CrawlJson, (json_to_crawl j).success = true) ∧
    (∀ r : CrawlResult, (json_to_crawl (crawl_to_json r)).success = true) :=
  ⟨fun _ _ => rfl, fun _ => rfl, fun _ => rfl⟩

/-- A raw page with no extractable content (all attributes absent). -/
def c3_raw_bad : RawPage := {}

/-- A raw page with markdown content. -/
def c3_raw_good : RawPage :=
  { url := some "https://example.com/a", markdown := some "Hello page" }

/-- Claim C3 failing input: a crawl of three yielded pages of which two
fail extraction.  The code's own invariants `total_pages == len(pages)`
and the formula for `success_rate` hold, but `success_rate` evaluates to
`-1`, outside the `[0, 1]` range the claim (and the property's docstring
"Success rate from 0.0 to 1.0") promise — failed pages are not in
`pages`, so `failed_pages` can exceed `total_pages`. -/
theorem crawl_success_rate_negative :
    ∃ res,
      crawl 100 "https://example.com" 1 none
          [(1, c3_raw_bad), (1, c3_raw_bad), (1, c3_raw_good)] "t0" "t1" = .ok res ∧
      res.total_pages = res.pages.length ∧
      res.total_pages = 1 ∧
      res.failed_pages = 2 ∧
      success_rate res = -1 ∧
      success_rate res < 0 := by
  refine ⟨_, rfl, rfl, rfl, rfl, ?_, ?_⟩
  · norm_num [success_rate]
  · norm_num [success_rate]

/-- Claim C4: traversal is bounded by the wall-clock budget
`per_request_timeout * depth`; when that budget is exceeded before
traversal completes (the event sequence overruns the budget and the page
cap, when given, never ends traversal first), the whole crawl fails with
`CrawlerError` and no partial `CrawlResult` is returned (the `Except` is
an error, which carries no result). -/
theorem crawl_timeout_all_or_nothing (cfg_timeout depth : Nat) (url : String)
    (max_pages : Option Nat) (events : List CrawlEvent) (t0 t1 : String)
    (hurl : validate_url url = true)
    (hbudget : cfg_timeout * depth < sum_dur events)
    (hcap : ∀ m, max_pages = some m → m ≠ 0 → count_ok events < m) :
    crawl cfg_timeout url depth max_pages events t0 t1 =
      .error (.base .crawler
        ("Crawl timed out after " ++ toString (cfg_timeout * depth) ++ " seconds")) := by
  unfold crawl
  rw [if_pos hurl]
  rw [process_with_timeout_overrun (cfg_timeout * depth) max_pages events 0 [] 0
    (Nat.zero_le _) (by omega)
    (by intro m hm hm0; simpa using hcap m hm hm0)]

/-- A raw page with markdown content, used for the C4 witness. -/
def c4_raw_good : RawPage :=
  { url := some "https://example.com/a", markdown := some "Hello page" }

/-- Witness for C4: one yielded page consuming 2 seconds against a
`1 * 1` second budget makes the crawl fail with the timeout
`CrawlerError`. -/
theorem crawl_timeout_all_or_nothing_witness :
    validate_url "https://example.com" = true ∧
    1 * 1 < sum_dur [(2, c4_raw_good)] ∧
    crawl 1 "https://example.com" 1 none [(2, c4_raw_good)] "t0" "t1" =
      .error (.base .crawler
        ("Crawl timed out after " ++ toString (1 * 1) ++ " seconds")) :=
  ⟨by decide, by decide,
    crawl_timeout_all_or_nothing 1 1 "https://example.com" none
      [(2, c4_raw_good)] "t0" "t1" (by decide) (by decide)
      (by intro m hm; cases hm)⟩

/-- Claim C5: within the budget (and with no page cap), every yielded page
is processed independently: the crawl returns successfully even when some
pages fail extraction, the pages that extract successfully all appear in
order, and each extraction failure contributes exactly one to
`failed_pages` — a failing page never aborts the crawl. -/
theorem crawl_page_failure_tolerance (cfg_timeout depth : Nat) (url : String)
    (events : List CrawlEvent) (t0 t1 : String)
    (hurl : validate_url url = true)
    (hbudget : sum_dur events ≤ cfg_timeout * depth) :
    crawl cfg_timeout url depth none events t0 t1 =
      .ok { source_url := url
            pages := events.filterMap extract_ok
            success := decide (0 < (events.filterMap extract_ok).length)
            total_pages := (events.filterMap extract_ok).length
            failed_pages := count_failed events
            crawl_depth := depth
            started_at := t0
            completed_at := some t1 } := by
  unfold crawl
  rw [if_pos hurl]
  rw [process_with_timeout_complete (cfg_timeout * depth) events 0 [] 0 (by omega)]
  simp

/-- A raw page with markdown content, used for the C5 witness. -/
def c5_raw_good : RawPage :=
  { url := some "https://example.com/a", markdown := some "Hello page" }

/-- A second raw page with markdown content, used for the C5 witness. -/
def c5_raw_good2 : RawPage :=
  { url := some "https://example.com/b", markdown := some "Second page" }

/-- A raw page with no extractable content, used for the C5 witness. -/
def c5_raw_bad : RawPage := {}

/-- Witness for C5: of three yielded pages the middle one fails
extraction; the crawl still succeeds with both good pages collected and
one failure counted. -/
theorem crawl_page_failure_tolerance_witness :
    validate_url "https://example.com" = true ∧
    sum_dur [(1, c5_raw_good), (1, c5_raw_bad), (1, c5_raw_good2)] ≤ 10 * 1 ∧
    crawl 10 "https://example.com" 1 none
        [(1, c5_raw_good), (1, c5_raw_bad), (1, c5_raw_good2)] "t0" "t1" =
      .ok { source_url := "https://example.com"
            pages := [(1, c5_raw_good), (1, c5_raw_bad),
              (1, c5_raw_good2)].filterMap extract_ok
            success := decide (0 < ([(1, c5_raw_good), (1, c5_raw_bad),
              (1, c5_raw_good2)].filterMap extract_ok).length)
            total_pages := ([(1, c5_raw_good), (1, c5_raw_bad),
              (1, c5_raw_good2)].filterMap extract_ok).length
            failed_pages := count_failed [(1, c5_raw_good), (1, c5_raw_bad),
              (1, c5_raw_good2)]
            crawl_depth := 1
            started_at := "t0"
            completed_at := some "t1" } :=
  ⟨by decide, by decide,
    crawl_page_failure_tolerance 10 1 "https://example.com"
      [(1, c5_raw_good), (1, c5_raw_bad), (1, c5_raw_good2)] "t0" "t1"
      (by decide) (by decide)⟩

/-- Any error outcome of `stream_finish` is a wrapped exception. -/
theorem stream_finish_outcome (σ : FileStore) (sb : StreamBehavior)
    (prompt sp : String) (sid : Option String) (sess : Option Session)
    (e : Exn) (h : (stream_finish σ sb prompt sp sid sess).outcome = some e) :
    ∃ e0, e = stream_wrap e0 := by
  unfold stream_finish at h
  cases hterm : sb.terminal with
  | some e0 =>
    rw [hterm] at h
    exact ⟨e0, (Option.some.injEq _ _ ▸ h).symm⟩
  | none =>
    rw [hterm] at h
    cases sess with
    | none => simp at h
    | some s =>
      by_cases hid : truthy_id sid = true
      · simp [hid] at h
      · simp [hid] at h

/-- A context that passes validation is returned as constructed. -/
theorem mkQueryContext_ok (content : String) (mt : Int) (hist : List Message)
    (hc : content ≠ "") (hmt : 0 < mt) :
    mkQueryContext content mt hist =
      .ok { content := content, max_tokens := mt, conversation_history := hist } := by
  unfold mkQueryContext
  rw [if_neg hc, if_neg (by omega)]

/-- The persisted message count of a session id equals the length of the
session `load_session` yields for it. -/
theorem load_session_count (σ : FileStore) (sid : String) :
    (load_session σ sid).messages.length = session_message_count σ sid := by
  unfold load_session session_message_count
  cases assoc_lookup σ.sessions (sid ++ ".json") with
  | some s => rfl
  | none => rfl

/-- Claim C1 counterexample: in `stream_query` a `StorageError` raised
while loading content does not propagate unchanged in kind — the
`except Exception` clause wraps it into an `AgentError`, so the caller
observes kind `agent`, not kind `storage`. -/
theorem stream_query_wraps_storage_error :
    (stream_query_run file_store_empty
        (.error (.base .storage "File not found: src.md"))
        { chunks := [], terminal := none } none "q" "src.md" (some "s1") 4000).outcome =
      some (.wrapped .agent "Stream orchestration failed: File not found: src.md"
        (.base .storage "File not found: src.md")) ∧
    exn_kind (.wrapped .agent "Stream orchestration failed: File not found: src.md"
        (.base .storage "File not found: src.md")) = some ErrKind.agent ∧
    ErrKind.agent ≠ ErrKind.storage :=
  ⟨rfl, rfl, by decide⟩

/-- Claim C1 (amended): in `query_with_source` a `StorageError` or
`AgentError` produced by the body propagates unchanged and any other
failure is wrapped into an `AgentError` carrying the original cause, so
its callers only observe those two kinds; in `stream_query` every failure
— including a `StorageError` from loading — is wrapped into an
`AgentError` carrying the original cause, so its callers only observe
`AgentError`. -/
theorem orchestrator_error_propagation :
    (∀ (σ : FileStore) (cr : Except Exn String) (ar : Except Exn QueryResult)
        (prompt sp : String) (sid : Option String) (mt : Int) (e : Exn),
      query_with_source_core σ cr ar prompt sp sid mt = .error e →
        ((exn_kind e = some ErrKind.storage ∨ exn_kind e = some ErrKind.agent) →
          query_with_source σ cr ar prompt sp sid mt = .error e) ∧
        (exn_kind e ≠ some ErrKind.storage → exn_kind e ≠ some ErrKind.agent →
          query_with_source σ cr ar prompt sp sid mt = .error (query_wrap e) ∧
          exn_cause (query_wrap e) = some e)) ∧
    (∀ (σ : FileStore) (cr : Except Exn String) (ar : Except Exn QueryResult)
        (prompt sp : String) (sid : Option String) (mt : Int) (e : Exn),
      query_with_source σ cr ar prompt sp sid mt = .error e →
        exn_kind e = some ErrKind.storage ∨ exn_kind e = some ErrKind.agent) ∧
    (∀ (σ : FileStore) (cr : Except Exn String) (sb : StreamBehavior)
        (consumed : Option Nat) (prompt sp : String) (sid : Option String)
        (mt : Int) (e : Exn),
      (stream_query_run σ cr sb consumed prompt sp sid mt).outcome = some e →
        exn_kind e = some ErrKind.agent ∧
        ∃ e0, e = stream_wrap e0 ∧ exn_cause e = some e0) := by
  refine ⟨?_, ?_, ?_⟩
  · intro σ cr ar prompt sp sid mt e h
    unfold query_with_source
    rw [h]
    constructor
    · intro hk
      cases hk with
      | inl hk => simp [orchestrate_handler, hk]
      | inr hk => simp [orchestrate_handler, hk]
    · intro h1 h2
      exact ⟨by simp [orchestrate_handler, h1, h2], rfl⟩
  · intro σ cr ar prompt sp sid mt e h
    unfold query_with_source at h
    cases hc : query_with_source_core σ cr ar prompt sp sid mt with
    | ok v => rw [hc] at h; simp [orchestrate_handler] at h
    | error e0 =>
      rw [hc] at h
      by_cases k1 : exn_kind e0 = some ErrKind.storage
      · simp [orchestrate_handler, k1] at h
        exact Or.inl (h ▸ k1)
      · by_cases k2 : exn_kind e0 = some ErrKind.agent
        · simp [orchestrate_handler, k1, k2] at h
          exact Or.inr (h ▸ k2)
        · simp [orchestrate_handler, k1, k2] at h
          subst h
          exact Or.inr rfl
  · intro σ cr sb consumed prompt sp sid mt e h
    have hw : ∃ e0, e = stream_wrap e0 := by
      unfold stream_query_run at h
      by_cases h0 : consumed = some 0
      · rw [if_pos h0] at h; simp at h
      · rw [if_neg h0] at h
        split at h
        · rename_i e1
          simp only [Option.some.injEq] at h
          exact ⟨e1, h.symm⟩
        · split at h
          · rename_i e2 hctx
            simp only [Option.some.injEq] at h
            exact ⟨e2, h.symm⟩
          · split at h
            · split at h
              · simp at h
              · exact stream_finish_outcome _ _ _ _ _ _ _ h
            · exact stream_finish_outcome _ _ _ _ _ _ _ h
    obtain ⟨e0, he0⟩ := hw
    subst he0
    exact ⟨rfl, e0, rfl, rfl⟩

/-- Witness for C1 (amended): with the source file missing, the blocking
path re-raises the `StorageError` unchanged and the streaming path
delivers an `AgentError` wrapping it. -/
theorem orchestrator_error_propagation_witness :
    query_with_source_core file_store_empty
        (.error (.base .storage "File not found: src.md"))
        (.ok { response := "ok" }) "q" "src.md" none 4000 =
      .error (.base .storage "File not found: src.md") ∧
    query_with_source file_store_empty
        (.error (.base .storage "File not found: src.md"))
        (.ok { response := "ok" }) "q" "src.md" none 4000 =
      .error (.base .storage "File not found: src.md") ∧
    exn_kind
        ((stream_wrap (.base .storage "File not found: src.md"))) =
      some ErrKind.agent :=
  ⟨rfl,
    (orchestrator_error_propagation.1 file_store_empty
      (.error (.base .storage "File not found: src.md"))
      (.ok { response := "ok" }) "q" "src.md" none 4000
      (.base .storage "File not found: src.md") rfl).1 (Or.inl rfl),
    (orchestrator_error_propagation.2.2 file_store_empty
      (.error (.base .storage "File not found: src.md"))
      { chunks := [], terminal := none } none "q" "src.md" (some "s1") 4000
      (stream_wrap (.base .storage "File not found: src.md")) rfl).1⟩

/-- Saving a session whose id is `sid` makes the persisted message count of
`sid` the saved session's message count. -/
theorem session_message_count_save (σ : FileStore) (s3 : Session) (sid : String)
    (hid : s3.session_id = sid) :
    session_message_count (save_session σ s3) sid = s3.messages.length := by
  unfold session_message_count save_session
  simp [assoc_lookup, hid]

/-- Claim C2: in `stream_query` the session is persisted only after the
fragment sequence is fully exhausted.  A consumer that abandons the
stream after any prefix of the offered fragments leaves the persisted
store untouched; a stream that fails mid-way leaves it untouched as well;
and only full, error-free exhaustion appends exactly the
user/assistant pair (two messages) to the persisted session. -/
theorem stream_session_commit (σ : FileStore) (cr : Except Exn String)
    (sb : StreamBehavior) (prompt sp sid : String) (mt : Int) :
    (∀ k, k ≤ sb.chunks.length →
      (stream_query_run σ cr sb (some k) prompt sp (some sid) mt).store = σ) ∧
    (sb.terminal.isSome →
      (stream_query_run σ cr sb none prompt sp (some sid) mt).store = σ) ∧
    (∀ content, cr = .ok content → content ≠ "" → 0 < mt → sid ≠ "" →
      sb.terminal = none →
      (load_session σ sid).session_id = sid →
      session_message_count
          (stream_query_run σ cr sb none prompt sp (some sid) mt).store sid =
        session_message_count σ sid + 2) := by
  refine ⟨?_, ?_, ?_⟩
  · intro k hk
    by_cases hk0 : k = 0
    · subst hk0
      simp [stream_query_run]
    · unfold stream_query_run
      rw [if_neg (by simp [hk0])]
      split
      · rfl
      · split
        · rfl
        · simp [hk]
  · intro hsome
    obtain ⟨e, he⟩ := Option.isSome_iff_exists.mp hsome
    unfold stream_query_run
    rw [if_neg (by simp)]
    split
    · rfl
    · split
      · rfl
      · simp [stream_finish, he]
  · intro content hcr hc hmt hsid hterm hcons
    subst hcr
    rw [← load_session_count σ sid]
    have htr : truthy_id (some sid) = true := by
      simp [truthy_id, hsid]
    unfold stream_query_run
    rw [if_neg (by simp)]
    simp only [mkQueryContext_ok content mt _ hc hmt, htr, if_true,
      Option.getD_some, stream_finish, hterm]
    rw [session_message_count_save]
    · simp [add_message]
    · simp [add_message, Option.getD_some]
      exact hcons

/-- Witness for C2: with content available and a two-fragment stream,
abandoning after one fragment leaves the empty store unchanged, while
draining the stream persists exactly the two-message pair. -/
theorem stream_session_commit_witness :
    (1 ≤ (["Hel", "lo"] : List String).length ∧
      (stream_query_run file_store_empty (.ok "Acme sells widgets.")
          { chunks := ["Hel", "lo"], terminal := none } (some 1)
          "What?" "acme.md" (some "s1") 4000).store = file_store_empty) ∧
    session_message_count
        (stream_query_run file_store_empty (.ok "Acme sells widgets.")
          { chunks := ["Hel", "lo"], terminal := none } none
          "What?" "acme.md" (some "s1") 4000).store "s1" =
      session_message_count file_store_empty "s1" + 2 :=
  ⟨⟨by decide,
    (stream_session_commit file_store_empty (.ok "Acme sells widgets.")
      { chunks := ["Hel", "lo"], terminal := none } "What?" "acme.md" "s1" 4000).1
      1 (by decide)⟩,
    (stream_session_commit file_store_empty (.ok "Acme sells widgets.")
      { chunks := ["Hel", "lo"], terminal := none } "What?" "acme.md" "s1" 4000).2.2
      "Acme sells widgets." rfl (by decide) (by decide) (by decide) rfl rfl⟩

end WebIntel
